import Mathlib

/-
Verification of the garden_automation irrigation controller.

The development shallowly embeds the two core modules:
  * ControlModule: the actuator device (src/control_module/main.py) — the
    safety-interlocked watering state machine and the TCP request handler.
  * MainModule: the scheduler process (src/main_module/main.py) — the regimen
    compiler, due-slot computation, checkpointing tick, and control client.

Timed waits are modelled by the sequence of float-switch poll points they
contain; an oracle decides, at each poll point, whether the poll proceeds
normally, observes the float switch low, or raises an unrelated exception
(fault injection). Hardware actuation is modelled as a trace of events.
-/

namespace ControlModule

/-- Outcome of one float-switch poll point: the poll proceeds (switch high),
the switch reads low (FloatSwitchLowException is raised), or an unrelated
exception is injected at that point. -/
inductive PollOutcome
  | ok
  | low
  | fault
deriving DecidableEq

/-- Result of one timed wait: it ran to its timeout, or was cut short by a
float-switch-low poll, or by an injected exception. -/
inductive WaitResult
  | timedOut
  | low
  | fault
deriving DecidableEq

/-- FLOAT_SWITCH_CHECK_PERIOD_MS constant of water (src/control_module/main.py). -/
def FLOAT_SWITCH_CHECK_PERIOD_MS : Nat := 300

/-- PUMP_BUFFER_SLEEP_MS constant of water (src/control_module/main.py). -/
def PUMP_BUFFER_SLEEP_MS : Nat := 10 * 1000

/-- Number of float-switch polls performed by
sleep_until_timeout_or_float_switch_low for a given wait duration: the loop
checks the switch once per elapsed multiple of the check period that is
strictly below the timeout, i.e. the ceiling of duration over period. -/
def pollCount (duration_ms : Nat) : Nat :=
  (duration_ms + (FLOAT_SWITCH_CHECK_PERIOD_MS - 1)) / FLOAT_SWITCH_CHECK_PERIOD_MS

/-- sleep_until_timeout_or_float_switch_low of src/control_module/main.py,
reduced to its poll points: scan the next n poll outcomes starting at index
start; the first low or fault outcome aborts the wait, otherwise it times out. -/
def waitScan (oracle : Nat → PollOutcome) (start : Nat) : Nat → WaitResult
  | 0 => WaitResult.timedOut
  | n + 1 =>
    match oracle start with
    | PollOutcome.ok => waitScan oracle (start + 1) n
    | PollOutcome.low => WaitResult.low
    | PollOutcome.fault => WaitResult.fault

/-- Observable hardware events of the water state machine, in the order they
are issued: valve_pin.on, pump_pin.on, pump_pin.off, the drain-buffer sleep
taken in the outer finally block when the pump was engaged, and
valve_pin.off. -/
inductive HwEvent
  | valveOn
  | pumpOn
  | pumpOff
  | drainSleep
  | valveOff
deriving DecidableEq

/-- How a run of water terminates: returns True, returns False after a
float-switch abort, or lets an injected exception propagate to the caller. -/
inductive WaterOutcome
  | success
  | floatAbort
  | fault
deriving DecidableEq

/-- The water function of src/control_module/main.py (lines 29-89), embedded
over the poll-point oracle. Poll index 0 is the entry float-switch check;
polls 1 .. pollCount PUMP_BUFFER_SLEEP_MS belong to the pressurize wait; the
following pollCount (duration * 1000) polls belong to the pump-on wait. The
returned trace lists the hardware events issued on that path: the entry-check
abort touches no hardware; an abort during the pressurize wait closes the
valve with no drain sleep (pump_engaged is False); any exit after the pump
was engaged runs pump off, the drain sleep, then valve off. -/
def water (oracle : Nat → PollOutcome) (duration : Nat) : WaterOutcome × List HwEvent :=
  match oracle 0 with
  | PollOutcome.low => (WaterOutcome.floatAbort, [])
  | PollOutcome.fault => (WaterOutcome.fault, [])
  | PollOutcome.ok =>
    match waitScan oracle 1 (pollCount PUMP_BUFFER_SLEEP_MS) with
    | WaitResult.low => (WaterOutcome.floatAbort, [HwEvent.valveOn, HwEvent.valveOff])
    | WaitResult.fault => (WaterOutcome.fault, [HwEvent.valveOn, HwEvent.valveOff])
    | WaitResult.timedOut =>
      match waitScan oracle (1 + pollCount PUMP_BUFFER_SLEEP_MS) (pollCount (duration * 1000)) with
      | WaitResult.low =>
        (WaterOutcome.floatAbort,
         [HwEvent.valveOn, HwEvent.pumpOn, HwEvent.pumpOff, HwEvent.drainSleep, HwEvent.valveOff])
      | WaitResult.fault =>
        (WaterOutcome.fault,
         [HwEvent.valveOn, HwEvent.pumpOn, HwEvent.pumpOff, HwEvent.drainSleep, HwEvent.valveOff])
      | WaitResult.timedOut =>
        (WaterOutcome.success,
         [HwEvent.valveOn, HwEvent.pumpOn, HwEvent.pumpOff, HwEvent.drainSleep, HwEvent.valveOff])

/-- Ordered-cleanup checker over a trace, threading the valve and pump state:
it demands that the valve is open whenever the pump is switched on and that
the pump is off at the moment the valve is closed. Together these say the
pump is never on while the valve is closed. -/
def cleanupOk : Bool → Bool → List HwEvent → Bool
  | _, p, HwEvent.valveOn :: rest => cleanupOk true p rest
  | v, _, HwEvent.pumpOn :: rest => v && cleanupOk v true rest
  | v, _, HwEvent.pumpOff :: rest => cleanupOk v false rest
  | v, p, HwEvent.drainSleep :: rest => cleanupOk v p rest
  | _, p, HwEvent.valveOff :: rest => !p && cleanupOk false p rest
  | _, _, [] => true

/-- Pump state after replaying a trace from the given initial pump state. -/
def finalPump : Bool → List HwEvent → Bool
  | _, HwEvent.pumpOn :: rest => finalPump true rest
  | _, HwEvent.pumpOff :: rest => finalPump false rest
  | p, _ :: rest => finalPump p rest
  | p, [] => p

/-- Checks that no b event occurs anywhere after an a event in the trace. -/
def noEventAfter (a b : HwEvent) : List HwEvent → Bool
  | [] => true
  | e :: rest =>
    (if e = a then rest.all (fun x => x != b) else true) && noEventAfter a b rest

/-- The full hardware trace of any run of water that engaged the pump. -/
def fullTrace : List HwEvent :=
  [HwEvent.valveOn, HwEvent.pumpOn, HwEvent.pumpOff, HwEvent.drainSleep, HwEvent.valveOff]

end ControlModule

namespace ControlModule

/-- A request payload as the service sees it after json.loads succeeded and
returned an object: the optional request field (a string or absent) and
whether a non-null args member is present. -/
structure ReqObj where
  request : Option String
  hasArgs : Bool
deriving DecidableEq

/-- Keys of REQUEST_TYPE_TO_ARGS in main of src/control_module/main.py. -/
def REQUEST_TYPES : List String := ["water"]

/-- Result of json.loads on the received payload: a ValueError, a valid JSON
document that is not an object (a list, string, number, boolean or null — no
such value has a get method), or a JSON object. -/
inductive ParseResult
  | err
  | nonObject
  | obj (payload : ReqObj)
deriving DecidableEq

/-- How the service's per-connection handling ends: it sent a response and
went on to accept the next connection, or it sent success false from the
outer exception handler and then re-raised, terminating the process. -/
inductive ServeOutcome
  | respond (success : Bool)
  | crashAfterReply
deriving DecidableEq

/-- The per-connection request handling of main in src/control_module/main.py
(lines 118-164). Inputs: the raw received characters, the result of
json.loads on them, and the outcome of dispatching the action (an exception
or a returned Bool). Indexing payload_raw with -1 raises IndexError on an
empty payload, and payload_dict.get on a non-object JSON document raises
AttributeError; both land in the outer exception handler, which answers with
success false and then re-raises, terminating the service. Every other
validation failure responds success false and continues; an action exception
is caught and reported as success false. -/
def handleConnection (payload_raw : List Char) (parsed : ParseResult)
    (action : Except Unit Bool) : ServeOutcome :=
  match payload_raw.getLast? with
  | none => ServeOutcome.crashAfterReply
  | some lastChar =>
    if lastChar ≠ '\n' then ServeOutcome.respond false
    else
      match parsed with
      | ParseResult.err => ServeOutcome.respond false
      | ParseResult.nonObject => ServeOutcome.crashAfterReply
      | ParseResult.obj payload =>
        match payload.request with
        | none => ServeOutcome.respond false
        | some req =>
          if req ∈ REQUEST_TYPES then
            if payload.hasArgs then
              match action with
              | Except.error _ => ServeOutcome.respond false
              | Except.ok b => ServeOutcome.respond b
            else ServeOutcome.respond false
          else ServeOutcome.respond false

/-- A request fails the service's validation: it is not newline-terminated,
or it is not valid JSON, or it carries no known action name (its JSON is not
an object, or the request field is absent or names no known action), or its
args member is missing. -/
def failsValidation (payload_raw : List Char) (parsed : ParseResult) : Prop :=
  payload_raw.getLast? ≠ some '\n' ∨
  parsed = ParseResult.err ∨
  parsed = ParseResult.nonObject ∨
  (∃ payload, parsed = ParseResult.obj payload ∧
    ((∀ req, payload.request = some req → req ∉ REQUEST_TYPES) ∨ payload.hasArgs = false))

end ControlModule

namespace MainModule

/-- Value of the success field of a parsed server response: a JSON boolean or
any non-boolean JSON value. -/
inductive RespVal
  | bool (b : Bool)
  | nonBool
deriving DecidableEq

/-- How the client's water call fails: response object without a success key
(KeyError), or a success value that is not a boolean (the assertion
Response was not bool fails) — the failure mode the specification calls a
protocol error. -/
inductive ClientFailure
  | keyErr
  | assertErr
deriving DecidableEq

/-- The water function of src/main_module/main.py (lines 25-50), reduced to
its result logic: a connection error while sending reports False without
reading a response; otherwise the parsed response's success field is
extracted (raising on a missing key) and asserted to be a boolean (raising on
a non-boolean value), and returned. -/
def water (send_ok : Bool) (success_field : Option RespVal) : Except ClientFailure Bool :=
  if send_ok = false then Except.ok false
  else
    match success_field with
    | none => Except.error ClientFailure.keyErr
    | some (RespVal.bool b) => Except.ok b
    | some RespVal.nonBool => Except.error ClientFailure.assertErr

end MainModule

namespace MainModule

/-- MORNING window constant (src/main_module/main.py line 19). -/
def MORNING : Nat × Nat := (6, 9)

/-- AFTERNOON window constant (src/main_module/main.py line 20). -/
def AFTERNOON : Nat × Nat := (11, 17)

/-- NIGHT window constant (src/main_module/main.py line 21). -/
def NIGHT : Nat × Nat := (19, 22)

/-- The Schedule document: desired watering minutes per day-part window
(src/main_module/schedule.py). -/
structure Schedule where
  morning : Nat
  afternoon : Nat
  night : Nat
deriving DecidableEq

/-- Python range start stop step for a positive step: the ascending values
start, start + step, ... strictly below stop. -/
def pyRange (start stop step : Nat) : List Nat :=
  List.range' start ((stop - start + step - 1) / step) step

/-- The per-window loop body of get_watering_regimen
(src/main_module/main.py lines 60-74): a zero duration contributes no
events; otherwise the watering period is the ceiling of the window span in
minutes over the duration (math.ceil of the exact quotient, which on these
integer inputs is Nat ceiling division), and the loop appends each range
value, stopping once duration_minutes events were appended. -/
def windowEvents (start_hour end_hour duration_minutes : Nat) : List Nat :=
  if duration_minutes = 0 then []
  else
    (pyRange (start_hour * 60) (end_hour * 60)
        (((end_hour - start_hour) * 60 + duration_minutes - 1) / duration_minutes)).take
      duration_minutes

/-- get_watering_regimen of src/main_module/main.py (lines 53-75): the
concatenation of the per-window events for morning, afternoon and night, in
that fixed order. -/
def get_watering_regimen (schedule : Schedule) : List Nat :=
  windowEvents MORNING.1 MORNING.2 schedule.morning ++
    (windowEvents AFTERNOON.1 AFTERNOON.2 schedule.afternoon ++
      windowEvents NIGHT.1 NIGHT.2 schedule.night)

/-- Conversion of a minutes-since-midnight value to an (hour, minute) pair,
as done inside get_last_scheduled_watering_time. -/
def toHM (t : Nat) : Nat × Nat := (t / 60, t % 60)

/-- The reversed-scan loop of get_last_scheduled_watering_time: return the
first entry of the given (already reversed) list whose (hour, minute) pair is
at or before now under Python's lexicographic tuple comparison. -/
def findRev (now_hour now_min : Nat) : List Nat → Option (Nat × Nat)
  | [] => none
  | t :: rest =>
    if t / 60 < now_hour ∨ (t / 60 = now_hour ∧ t % 60 ≤ now_min) then
      some (t / 60, t % 60)
    else findRev now_hour now_min rest

/-- get_last_scheduled_watering_time of src/main_module/main.py (lines
78-86): scan the regimen in reverse for the last entry at or before now,
falling back to the regimen's final entry; on an empty regimen the source
raises (modelled as none). -/
def get_last_scheduled_watering_time (regimen : List Nat) (now_hour now_min : Nat) :
    Option (Nat × Nat) :=
  match findRev now_hour now_min regimen.reverse with
  | some r => some r
  | none => regimen.getLast?.map toHM

/-- Due-slot selection as the specification words it: the last regimen
time-of-day at or before the current time, wrapping to the regimen's last
entry when no entry qualifies. -/
def specDueSlot (regimen : List Nat) (now_min_of_day : Nat) : Option Nat :=
  match (regimen.filter (fun t => t ≤ now_min_of_day)).getLast? with
  | some d => some d
  | none => regimen.getLast?

/-- What one scheduler tick did: whether a watering attempt was issued, what
result it reported if so, whether the Checkpoint file was rewritten, and the
Checkpoint value after the tick. -/
structure TickResult where
  watered : Bool
  attemptReported : Option Bool
  wrote : Bool
  checkpoint : Option (Nat × Nat)
deriving DecidableEq

/-- The per-tick scheduling step of main in src/main_module/main.py (lines
131-148), for a tick on which the regimen is already compiled: compute the
last scheduled time; if no Checkpoint exists or it differs from that time,
issue a watering attempt (its reported result is the attempt_result
parameter) and then persist the computed time as the new Checkpoint,
regardless of the reported result; otherwise do nothing. An empty regimen
(modelled by the none branch) skips the whole block. -/
def schedulerTick (regimen : List Nat) (now_hour now_min : Nat)
    (last_watered_at : Option (Nat × Nat)) (attempt_result : Bool) : TickResult :=
  match get_last_scheduled_watering_time regimen now_hour now_min with
  | none => ⟨false, none, false, last_watered_at⟩
  | some last_scheduled =>
    if last_watered_at = none ∨ ¬(last_watered_at = some last_scheduled) then
      ⟨true, some attempt_result, true, some last_scheduled⟩
    else ⟨false, none, false, last_watered_at⟩

end MainModule

namespace MainModule

/-- The per-window event train as the specification words it: events at the
window start plus consecutive multiples of the period, stopping after exactly
duration_minutes events or when the window is exhausted, whichever comes
first; no events for a zero duration. -/
def specWindowEvents (start_hour end_hour duration_minutes : Nat) : List Nat :=
  if duration_minutes = 0 then []
  else
    (List.range
        (min duration_minutes
          (((end_hour - start_hour) * 60 +
              (((end_hour - start_hour) * 60 + duration_minutes - 1) / duration_minutes) - 1) /
            (((end_hour - start_hour) * 60 + duration_minutes - 1) / duration_minutes)))).map
      (fun k =>
        start_hour * 60 + k * (((end_hour - start_hour) * 60 + duration_minutes - 1) /
          duration_minutes))

end MainModule

namespace ControlModule

/-- Every run of water produces one of six result shapes: the two entry-check
aborts touch no hardware, the two pressurize-wait aborts open and close the
valve only, and any run that engaged the pump issues the full trace. -/
theorem water_shape (oracle : Nat → PollOutcome) (duration : Nat) :
    water oracle duration = (WaterOutcome.floatAbort, []) ∨
    water oracle duration = (WaterOutcome.fault, []) ∨
    water oracle duration = (WaterOutcome.floatAbort, [HwEvent.valveOn, HwEvent.valveOff]) ∨
    water oracle duration = (WaterOutcome.fault, [HwEvent.valveOn, HwEvent.valveOff]) ∨
    water oracle duration = (WaterOutcome.floatAbort, fullTrace) ∨
    water oracle duration = (WaterOutcome.fault, fullTrace) ∨
    water oracle duration = (WaterOutcome.success, fullTrace) := by
  unfold water
  cases h0 : oracle 0
  case low => exact Or.inl rfl
  case fault => exact Or.inr (Or.inl rfl)
  case ok =>
    cases h1 : waitScan oracle 1 (pollCount PUMP_BUFFER_SLEEP_MS)
    case low => exact Or.inr (Or.inr (Or.inl rfl))
    case fault => exact Or.inr (Or.inr (Or.inr (Or.inl rfl)))
    case timedOut =>
      cases h2 : waitScan oracle (1 + pollCount PUMP_BUFFER_SLEEP_MS) (pollCount (duration * 1000))
      case low => exact Or.inr (Or.inr (Or.inr (Or.inr (Or.inl rfl))))
      case fault => exact Or.inr (Or.inr (Or.inr (Or.inr (Or.inr (Or.inl rfl)))))
      case timedOut => exact Or.inr (Or.inr (Or.inr (Or.inr (Or.inr (Or.inr rfl)))))

/-- A run whose entry float-switch check reads low returns False immediately
and touches no hardware. -/
theorem water_entry_low (oracle : Nat → PollOutcome) (duration : Nat)
    (h : oracle 0 = PollOutcome.low) :
    water oracle duration = (WaterOutcome.floatAbort, []) := by
  unfold water
  rw [h]

end ControlModule

namespace MainModule

/-- Finding the first element satisfying a predicate is taking the head of
the filtered list. -/
theorem find?_eq_head?_filter (q : α → Bool) : ∀ l : List α, l.find? q = (l.filter q).head?
  | [] => rfl
  | a :: l => by
    cases hqa : q a
    · rw [List.find?_cons_of_neg _ (by simp [hqa]), List.filter_cons_of_neg (by simp [hqa]),
        find?_eq_head?_filter q l]
    · rw [List.find?_cons_of_pos _ hqa, List.filter_cons_of_pos hqa, List.head?_cons]

/-- Scanning a list in reverse for the first element satisfying a predicate
finds the last element of the list satisfying it. -/
theorem reverse_find?_eq_getLast?_filter (q : α → Bool) (l : List α) :
    l.reverse.find? q = (l.filter q).getLast? := by
  rw [find?_eq_head?_filter, List.filter_reverse, List.head?_reverse]

/-- Python's lexicographic tuple comparison of (now_hour, now_min) against
(t / 60, t % 60) agrees with comparing minutes-since-midnight values when
now_min is a minute value below 60. -/
theorem tuple_le_iff_minutes_le (t now_hour now_min : Nat) (hm : now_min < 60) :
    (t / 60 < now_hour ∨ (t / 60 = now_hour ∧ t % 60 ≤ now_min)) ↔
      t ≤ now_hour * 60 + now_min := by
  omega

/-- The reversed-scan loop equals find? with the minutes-since-midnight
bound, mapped to (hour, minute) form. -/
theorem findRev_eq_find? (now_hour now_min : Nat) (hm : now_min < 60) :
    ∀ l : List Nat,
      findRev now_hour now_min l =
        (l.find? (fun t => t ≤ now_hour * 60 + now_min)).map toHM
  | [] => rfl
  | t :: l => by
    by_cases hc : t ≤ now_hour * 60 + now_min
    · rw [findRev, if_pos ((tuple_le_iff_minutes_le t now_hour now_min hm).mpr hc),
        List.find?_cons_of_pos _ (by simpa using hc)]
      rfl
    · rw [findRev, if_neg (fun hcon => hc ((tuple_le_iff_minutes_le t now_hour now_min hm).mp hcon)),
        List.find?_cons_of_neg _ (by simpa using hc), findRev_eq_find? now_hour now_min hm l]

/-- Taking a prefix of an arithmetic progression truncates its length. -/
theorem take_range' (p : Nat) :
    ∀ (d n a : Nat), (List.range' a n p).take d = List.range' a (min d n) p
  | 0, n, a => by simp
  | d + 1, 0, a => by simp
  | d + 1, n + 1, a => by
    rw [List.range'_succ, List.take_succ_cons, take_range' p d n (a + p),
      Nat.succ_min_succ, List.range'_succ]

/-- An arithmetic progression written as a mapped index range. -/
theorem range'_eq_map_range_mul (a p n : Nat) :
    List.range' a n p = (List.range n).map (fun k => a + k * p) := by
  apply List.ext_getElem
  · simp
  · intro i h1 h2
    simp [List.getElem_range', Nat.mul_comm]

/-- Below the ceiling of D over p, multiples of p stay below D. -/
theorem mul_lt_of_lt_ceil_div {D p i : Nat} (hp : 0 < p) (h : i < (D + p - 1) / p) :
    p * i < D := by
  have h2 : (i + 1) * p ≤ ((D + p - 1) / p) * p := Nat.mul_le_mul_right p h
  have h3 : ((D + p - 1) / p) * p ≤ D + p - 1 := Nat.div_mul_le_self (D + p - 1) p
  have h4 : i * p + p ≤ D + p - 1 := by
    have : i * p + p = (i + 1) * p := by ring
    omega
  have h5 : p * i = i * p := Nat.mul_comm p i
  omega

/-- The watering period computed for a window with positive span and positive
duration is positive. -/
theorem period_pos {s e d : Nat} (hse : s < e) (hd : 0 < d) :
    0 < ((e - s) * 60 + d - 1) / d := by
  have hspan : 60 ≤ (e - s) * 60 := by
    have h1 : 1 * 60 ≤ (e - s) * 60 := Nat.mul_le_mul_right 60 (by omega)
    omega
  have h2 : 1 * d ≤ (e - s) * 60 + d - 1 := by omega
  exact (Nat.le_div_iff_mul_le hd).mpr h2

/-- The per-window event list, for a positive duration, is the truncated
arithmetic progression starting at the window start with the computed
period. -/
theorem windowEvents_eq_range' (s e d : Nat) (hd : d ≠ 0) :
    windowEvents s e d =
      List.range' (s * 60)
        (min d ((e * 60 - s * 60 + ((e - s) * 60 + d - 1) / d - 1) /
          (((e - s) * 60 + d - 1) / d)))
        (((e - s) * 60 + d - 1) / d) := by
  rw [windowEvents, if_neg hd, pyRange, take_range']

/-- Window span in raw minutes equals the span of the hour bounds times 60. -/
theorem span_sub_mul (s e : Nat) : e * 60 - s * 60 = (e - s) * 60 := by
  omega

/-- Every per-window event lies inside the window: at or after the window
start and strictly before the window end. -/
theorem windowEvents_mem_bounds {s e d : Nat} (hse : s < e) :
    ∀ x ∈ windowEvents s e d, s * 60 ≤ x ∧ x < e * 60 := by
  intro x hx
  by_cases hd : d = 0
  · rw [windowEvents, if_pos hd] at hx
    exact absurd hx (List.not_mem_nil x)
  · rw [windowEvents_eq_range' s e d hd] at hx
    obtain ⟨i, hi, rfl⟩ := List.mem_range'.mp hx
    have hp : 0 < ((e - s) * 60 + d - 1) / d := period_pos hse (Nat.pos_of_ne_zero hd)
    constructor
    · exact Nat.le_add_right _ _
    · have hiN : i < (e * 60 - s * 60 + ((e - s) * 60 + d - 1) / d - 1) /
          (((e - s) * 60 + d - 1) / d) := lt_of_lt_of_le hi (Nat.min_le_right _ _)
      have hlt : (((e - s) * 60 + d - 1) / d) * i < e * 60 - s * 60 :=
        mul_lt_of_lt_ceil_div hp hiN
      have hse60 : s * 60 ≤ e * 60 := Nat.mul_le_mul_right 60 (Nat.le_of_lt hse)
      omega

/-- The per-window event count never exceeds the requested duration. -/
theorem windowEvents_length_le (s e d : Nat) : (windowEvents s e d).length ≤ d := by
  by_cases hd : d = 0
  · rw [windowEvents, if_pos hd]
    simp [hd]
  · rw [windowEvents_eq_range' s e d hd, List.length_range']
    exact Nat.min_le_left _ _

/-- The events of one window are strictly increasing. -/
theorem windowEvents_pairwise {s e d : Nat} (hse : s < e) :
    List.Pairwise (· < ·) (windowEvents s e d) := by
  by_cases hd : d = 0
  · rw [windowEvents, if_pos hd]
    exact List.Pairwise.nil
  · rw [windowEvents_eq_range' s e d hd]
    exact List.pairwise_lt_range' _ _ _ (period_pos hse (Nat.pos_of_ne_zero hd))

end MainModule

open ControlModule in
/-- C1: in every execution of water — normal completion, float-switch abort,
or an exception injected at any poll point, in particular at any point after
the pump is engaged — the trace keeps the invariant that the pump is on only
while the valve is open, and whenever the pump was engaged the pump-off event
precedes the valve-close event. -/
theorem claim_C1_pump_off_before_valve_close (oracle : Nat → PollOutcome) (duration : Nat) :
    cleanupOk false false (water oracle duration).2 = true ∧
    (HwEvent.pumpOn ∈ (water oracle duration).2 →
      HwEvent.pumpOff ∈ (water oracle duration).2 ∧
      HwEvent.valveOff ∈ (water oracle duration).2 ∧
      (water oracle duration).2.indexOf HwEvent.pumpOff <
        (water oracle duration).2.indexOf HwEvent.valveOff) := by
  rcases water_shape oracle duration with h | h | h | h | h | h | h <;> rw [h] <;>
    exact ⟨by decide, by decide⟩

open ControlModule in
/-- Witness for C1 at a run with no abort: the pump was engaged and the
pump-off event precedes the valve-close event. -/
theorem claim_C1_pump_off_before_valve_close_witness :
    HwEvent.pumpOff ∈ (water (fun _ => PollOutcome.ok) 1).2 ∧
    HwEvent.valveOff ∈ (water (fun _ => PollOutcome.ok) 1).2 ∧
    (water (fun _ => PollOutcome.ok) 1).2.indexOf HwEvent.pumpOff <
      (water (fun _ => PollOutcome.ok) 1).2.indexOf HwEvent.valveOff :=
  (claim_C1_pump_off_before_valve_close (fun _ => PollOutcome.ok) 1).2 (by decide)

open ControlModule in
/-- C7: a float-switch-low reading at the entry check aborts with no hardware
touched; any float-switch abort leaves the pump off and never re-engaged,
closes the valve whenever it was opened, and never re-opens the valve after
closing it. -/
theorem claim_C7_float_abort_safe (oracle : Nat → PollOutcome) (duration : Nat) :
    (oracle 0 = PollOutcome.low → water oracle duration = (WaterOutcome.floatAbort, [])) ∧
    ((water oracle duration).1 = WaterOutcome.floatAbort →
      finalPump false (water oracle duration).2 = false ∧
      noEventAfter HwEvent.pumpOff HwEvent.pumpOn (water oracle duration).2 = true ∧
      (HwEvent.valveOn ∈ (water oracle duration).2 →
        HwEvent.valveOff ∈ (water oracle duration).2) ∧
      noEventAfter HwEvent.valveOff HwEvent.valveOn (water oracle duration).2 = true) := by
  refine ⟨water_entry_low oracle duration, ?_⟩
  rcases water_shape oracle duration with h | h | h | h | h | h | h <;> rw [h] <;> decide

open ControlModule in
/-- Witness for C7: with the float switch low from the start, the run aborts
with no hardware events; with the float switch going low at the first
pressurize-wait poll, the opened valve is closed again. -/
theorem claim_C7_float_abort_safe_witness :
    water (fun _ => PollOutcome.low) 1 = (WaterOutcome.floatAbort, []) ∧
    finalPump false (water (fun _ => PollOutcome.low) 1).2 = false ∧
    HwEvent.valveOff ∈
      (water (fun n => if n = 0 then PollOutcome.ok else PollOutcome.low) 1).2 :=
  ⟨(claim_C7_float_abort_safe (fun _ => PollOutcome.low) 1).1 rfl,
   ((claim_C7_float_abort_safe (fun _ => PollOutcome.low) 1).2 (by decide)).1,
   ((claim_C7_float_abort_safe (fun n => if n = 0 then PollOutcome.ok else PollOutcome.low) 1).2
      (by decide)).2.2.1 (by decide)⟩

open ControlModule in
/-- Counterexample to C8 as stated: when the float switch goes low during the
pressurize wait, the valve was opened and is closed again, yet no drain-buffer
sleep occurs before the valve close — the claim demanded the drain buffer on
every exit path, including aborts that occur before the pump was engaged. -/
theorem claim_C8_counterexample :
    HwEvent.valveOn ∈
      (water (fun n => if n = 0 then PollOutcome.ok else PollOutcome.low) 1).2 ∧
    HwEvent.valveOff ∈
      (water (fun n => if n = 0 then PollOutcome.ok else PollOutcome.low) 1).2 ∧
    HwEvent.drainSleep ∉
      (water (fun n => if n = 0 then PollOutcome.ok else PollOutcome.low) 1).2 := by
  decide

open ControlModule in
/-- C8 amended: in every execution of water in which the pump was engaged, the
valve close happens only after the pump-off event and after a drain-buffer
sleep that sits strictly between pump-off and valve close; aborts before pump
engagement close the valve without the drain buffer. -/
theorem claim_C8_drain_between_pump_off_and_valve_close
    (oracle : Nat → PollOutcome) (duration : Nat) :
    HwEvent.pumpOn ∈ (water oracle duration).2 →
      HwEvent.pumpOff ∈ (water oracle duration).2 ∧
      HwEvent.drainSleep ∈ (water oracle duration).2 ∧
      HwEvent.valveOff ∈ (water oracle duration).2 ∧
      (water oracle duration).2.indexOf HwEvent.pumpOff <
        (water oracle duration).2.indexOf HwEvent.drainSleep ∧
      (water oracle duration).2.indexOf HwEvent.drainSleep <
        (water oracle duration).2.indexOf HwEvent.valveOff := by
  rcases water_shape oracle duration with h | h | h | h | h | h | h <;> rw [h] <;> decide

open ControlModule in
/-- Witness for the amended C8 at a run with no abort: the pump was engaged
and pump off, drain sleep, valve close appear in that order. -/
theorem claim_C8_drain_between_pump_off_and_valve_close_witness :
    HwEvent.pumpOff ∈ (water (fun _ => PollOutcome.ok) 1).2 ∧
    HwEvent.drainSleep ∈ (water (fun _ => PollOutcome.ok) 1).2 ∧
    HwEvent.valveOff ∈ (water (fun _ => PollOutcome.ok) 1).2 ∧
    (water (fun _ => PollOutcome.ok) 1).2.indexOf HwEvent.pumpOff <
      (water (fun _ => PollOutcome.ok) 1).2.indexOf HwEvent.drainSleep ∧
    (water (fun _ => PollOutcome.ok) 1).2.indexOf HwEvent.drainSleep <
      (water (fun _ => PollOutcome.ok) 1).2.indexOf HwEvent.valveOff :=
  claim_C8_drain_between_pump_off_and_valve_close (fun _ => PollOutcome.ok) 1 (by decide)

open ControlModule in
/-- Counterexample to C6 as stated, at two concrete inputs. The empty payload
fails validation (not newline-terminated), yet indexing it raises IndexError,
so the handler sends success false from the outer exception handler,
re-raises, and terminates the service. The non-empty, newline-terminated,
valid-JSON payload of the four characters of a bracketed 1 parses to a list,
which carries no known action name and so also fails validation, yet
payload_dict.get raises AttributeError on it with the same crash shape — in
neither case does the service respond success false and proceed. -/
theorem claim_C6_counterexample :
    (failsValidation [] ParseResult.err ∧
      handleConnection [] ParseResult.err (Except.ok true) = ServeOutcome.crashAfterReply ∧
      handleConnection [] ParseResult.err (Except.ok true) ≠ ServeOutcome.respond false) ∧
    (failsValidation ['[', '1', ']', '\n'] ParseResult.nonObject ∧
      handleConnection ['[', '1', ']', '\n'] ParseResult.nonObject (Except.ok true) =
        ServeOutcome.crashAfterReply ∧
      handleConnection ['[', '1', ']', '\n'] ParseResult.nonObject (Except.ok true) ≠
        ServeOutcome.respond false) := by
  refine ⟨⟨Or.inl (by decide), rfl, by decide⟩,
    ⟨Or.inr (Or.inr (Or.inl rfl)), by decide, by decide⟩⟩

open ControlModule in
/-- C6 amended: for every non-empty request payload whose body, when it
parses as JSON, parses to an object, and that fails the service's validation
— not newline-terminated, not valid JSON, unknown action name, or missing
args — the service responds success false, does not raise, and proceeds to
the next connection. An empty payload (IndexError while indexing it) and a
newline-terminated payload parsing to a non-object (AttributeError at
payload_dict.get) instead raise after sending success false, terminating the
service. -/
theorem claim_C6_validation_failure_responds_false
    (payload_raw : List Char) (parsed : ParseResult) (action : Except Unit Bool)
    (hne : payload_raw ≠ [])
    (hnonobj : parsed ≠ ParseResult.nonObject)
    (hfail : failsValidation payload_raw parsed) :
    handleConnection payload_raw parsed action = ServeOutcome.respond false := by
  unfold handleConnection
  cases h : payload_raw.getLast? with
  | none => exact absurd (List.getLast?_eq_none_iff.mp h) hne
  | some c =>
    dsimp only
    by_cases hc : c = '\n'
    · subst hc
      rw [if_neg (by simp)]
      rcases hfail with hf | hf | hf | hf
      · exact absurd h hf
      · rw [hf]
      · exact absurd hf hnonobj
      · obtain ⟨payload, hpar, hbad⟩ := hf
        rw [hpar]
        dsimp only
        cases hreq : payload.request with
        | none => rfl
        | some req =>
          dsimp only
          rcases hbad with hbad | hbad
          · rw [if_neg (hbad req hreq)]
          · rcases Decidable.em (req ∈ REQUEST_TYPES) with hin | hin
            · rw [if_pos hin, hbad, if_neg (by decide)]
            · rw [if_neg hin]
    · rw [if_pos hc]

open ControlModule in
/-- Witness for the amended C6: a one-character payload with no trailing
newline (failing both the newline check and JSON parsing) is answered with
success false. -/
theorem claim_C6_validation_failure_responds_false_witness :
    handleConnection ['x'] ParseResult.err (Except.ok true) = ServeOutcome.respond false :=
  claim_C6_validation_failure_responds_false ['x'] ParseResult.err (Except.ok true)
    (by decide) (by decide) (Or.inr (Or.inl rfl))

/-- C9: a received response whose success field is present but not a boolean
makes the client's water call fail with the protocol-violation error rather
than return a result. -/
theorem claim_C9_nonbool_success_fails :
    MainModule.water true (some MainModule.RespVal.nonBool) =
      Except.error MainModule.ClientFailure.assertErr ∧
    ∀ b : Bool, MainModule.water true (some MainModule.RespVal.nonBool) ≠ Except.ok b := by
  refine ⟨rfl, fun b h => ?_⟩
  rw [show MainModule.water true (some MainModule.RespVal.nonBool) =
        Except.error MainModule.ClientFailure.assertErr from rfl] at h
  exact Except.noConfusion h

open MainModule in
/-- C2: on a tick whose due slot is computed, if the persisted Checkpoint
equals the due slot then no watering attempt is issued and the Checkpoint
file is not rewritten; a watering attempt is issued exactly when the
Checkpoint is absent or differs from the due slot. -/
theorem claim_C2_scheduler_idempotent (regimen : List Nat) (now_hour now_min : Nat)
    (checkpoint : Option (Nat × Nat)) (w : Bool) (due : Nat × Nat)
    (hdue : get_last_scheduled_watering_time regimen now_hour now_min = some due) :
    (checkpoint = some due →
      (schedulerTick regimen now_hour now_min checkpoint w).watered = false ∧
      (schedulerTick regimen now_hour now_min checkpoint w).wrote = false ∧
      (schedulerTick regimen now_hour now_min checkpoint w).checkpoint = checkpoint) ∧
    ((schedulerTick regimen now_hour now_min checkpoint w).watered = true ↔
      checkpoint ≠ some due) := by
  unfold schedulerTick
  rw [hdue]
  dsimp only
  by_cases hc : checkpoint = some due
  · rw [if_neg (by simp [hc])]
    subst hc
    exact ⟨fun _ => ⟨rfl, rfl, rfl⟩, by simp⟩
  · rw [if_pos (Or.inr hc)]
    exact ⟨fun h => absurd h hc, by simp [hc]⟩

open MainModule in
/-- Witness for C2: with regimen [360, 720] at 07:00 the due slot is (6, 0);
a matching Checkpoint issues no attempt and rewrites nothing, and an absent
Checkpoint issues an attempt. -/
theorem claim_C2_scheduler_idempotent_witness :
    ((schedulerTick [360, 720] 7 0 (some (6, 0)) true).watered = false ∧
      (schedulerTick [360, 720] 7 0 (some (6, 0)) true).wrote = false ∧
      (schedulerTick [360, 720] 7 0 (some (6, 0)) true).checkpoint = some (6, 0)) ∧
    (schedulerTick [360, 720] 7 0 none true).watered = true :=
  ⟨(claim_C2_scheduler_idempotent [360, 720] 7 0 (some (6, 0)) true (6, 0) (by decide)).1 rfl,
   ((claim_C2_scheduler_idempotent [360, 720] 7 0 none true (6, 0) (by decide)).2).mpr
     (by decide)⟩

open MainModule in
/-- C5: whenever a tick issues a watering attempt, the Checkpoint written
after the tick equals the computed due slot, for either reported outcome of
the attempt. -/
theorem claim_C5_checkpoint_written_regardless (regimen : List Nat)
    (now_hour now_min : Nat) (checkpoint : Option (Nat × Nat)) (w : Bool)
    (due : Nat × Nat)
    (hdue : get_last_scheduled_watering_time regimen now_hour now_min = some due)
    (hwater : (schedulerTick regimen now_hour now_min checkpoint w).watered = true) :
    (schedulerTick regimen now_hour now_min checkpoint w).checkpoint = some due ∧
    (schedulerTick regimen now_hour now_min checkpoint w).wrote = true ∧
    (schedulerTick regimen now_hour now_min checkpoint w).attemptReported = some w := by
  unfold schedulerTick at hwater ⊢
  rw [hdue] at hwater ⊢
  dsimp only at hwater ⊢
  by_cases hc : checkpoint = none ∨ ¬(checkpoint = some due)
  · rw [if_pos hc]
    exact ⟨rfl, rfl, rfl⟩
  · rw [if_neg hc] at hwater
    exact Bool.noConfusion hwater

open MainModule in
/-- Witness for C5: with no prior Checkpoint an attempt is issued, and even a
failed attempt persists the due slot (6, 0) as the new Checkpoint. -/
theorem claim_C5_checkpoint_written_regardless_witness :
    (schedulerTick [360, 720] 7 0 none false).checkpoint = some (6, 0) ∧
    (schedulerTick [360, 720] 7 0 none false).wrote = true ∧
    (schedulerTick [360, 720] 7 0 none false).attemptReported = some false :=
  claim_C5_checkpoint_written_regardless [360, 720] 7 0 none false (6, 0)
    (by decide) (by decide)

open MainModule in
/-- C4: for every non-empty regimen sorted in increasing minute order and
every current time of day, get_last_scheduled_watering_time returns the last
regimen time-of-day at or before the current time, wrapping to the regimen's
last entry when no entry qualifies — the due-slot rule as the specification
words it. -/
theorem claim_C4_due_slot (regimen : List Nat) (now_hour now_min : Nat)
    (_hne : regimen ≠ []) (_hsorted : List.Sorted (· < ·) regimen) (hm : now_min < 60) :
    get_last_scheduled_watering_time regimen now_hour now_min =
      (specDueSlot regimen (now_hour * 60 + now_min)).map toHM := by
  unfold get_last_scheduled_watering_time specDueSlot
  rw [findRev_eq_find? now_hour now_min hm, reverse_find?_eq_getLast?_filter]
  cases h : (regimen.filter (fun t => t ≤ now_hour * 60 + now_min)).getLast? with
  | none => rfl
  | some d => rfl

open MainModule in
/-- Witness for C4: for regimen [360, 720] the due slot at 07:00 is 06:00
(entry 360), and at 05:00 it wraps to the last entry 720, i.e. 12:00. -/
theorem claim_C4_due_slot_witness :
    get_last_scheduled_watering_time [360, 720] 7 0 = some (6, 0) ∧
    get_last_scheduled_watering_time [360, 720] 5 0 = some (12, 0) :=
  ⟨(claim_C4_due_slot [360, 720] 7 0 (by decide) (by decide) (by decide)).trans (by decide),
   (claim_C4_due_slot [360, 720] 5 0 (by decide) (by decide) (by decide)).trans (by decide)⟩

open MainModule in
/-- C3: for every window with end_hour above start_hour, the compiled window
events are exactly the specified train — no events for a zero duration,
otherwise the events start_hour * 60 + k * period for consecutive k from 0
with period the ceiling of the window span over the duration, stopping after
exactly duration_minutes events or when the window is exhausted — and every
event lies inside the window, with the event count never exceeding the
duration. -/
theorem claim_C3_window_events (s e d : Nat) (hse : s < e) :
    windowEvents s e d = specWindowEvents s e d ∧
    (d = 0 → windowEvents s e d = []) ∧
    (∀ x ∈ windowEvents s e d, s * 60 ≤ x ∧ x < e * 60) ∧
    (windowEvents s e d).length ≤ d := by
  refine ⟨?_, ?_, windowEvents_mem_bounds hse, windowEvents_length_le s e d⟩
  · by_cases hd : d = 0
    · rw [windowEvents, specWindowEvents, if_pos hd, if_pos hd]
    · rw [windowEvents_eq_range' s e d hd, specWindowEvents, if_neg hd,
        range'_eq_map_range_mul, span_sub_mul]
  · intro hd
    rw [windowEvents, if_pos hd]

open MainModule in
/-- Witness for C3 at the afternoon example of the specification: window
11 to 17 with duration 5 gives period 72 and events 660, 732, 804, 876, 948,
exactly five events, all below 17:00. -/
theorem claim_C3_window_events_witness :
    windowEvents 11 17 5 = [660, 732, 804, 876, 948] ∧
    windowEvents 11 17 5 = specWindowEvents 11 17 5 ∧
    (windowEvents 11 17 5).length ≤ 5 :=
  ⟨by decide, (claim_C3_window_events 11 17 5 (by decide)).1,
   (claim_C3_window_events 11 17 5 (by decide)).2.2.2⟩

open MainModule in
/-- C10: for every Schedule, the regimen produced by get_watering_regimen is
strictly increasing in minute value — every morning event precedes every
afternoon event, which precedes every night event — so a reverse scan finds
the maximum entry at or before a given time. -/
theorem claim_C10_regimen_strictly_increasing (schedule : Schedule) :
    List.Sorted (· < ·) (get_watering_regimen schedule) := by
  have hm := @windowEvents_mem_bounds 6 9 schedule.morning (by decide)
  have ha := @windowEvents_mem_bounds 11 17 schedule.afternoon (by decide)
  have hn := @windowEvents_mem_bounds 19 22 schedule.night (by decide)
  refine List.pairwise_append.mpr
    ⟨windowEvents_pairwise (by decide),
     List.pairwise_append.mpr
       ⟨windowEvents_pairwise (by decide), windowEvents_pairwise (by decide), ?_⟩, ?_⟩
  · intro a haf b hnb
    have h1 := (ha a haf).2
    have h2 := (hn b hnb).1
    omega
  · intro a ham b hb
    rcases List.mem_append.mp hb with hb | hb
    · have h1 := (hm a ham).2
      have h2 := (ha b hb).1
      omega
    · have h1 := (hm a ham).2
      have h2 := (hn b hb).1
      omega

/-- Witness for C9: the non-boolean success value concretely yields the
assertion failure. -/
theorem claim_C9_nonbool_success_fails_witness :
    MainModule.water true (some MainModule.RespVal.nonBool) =
      Except.error MainModule.ClientFailure.assertErr :=
  claim_C9_nonbool_success_fails.1
